import Mathlib

/-!
Shallow embedding of src/fetchData.py (DV360DataFetcher) and proofs about it.

The Python program is an orchestration of remote API calls.  Each remote
endpoint is modelled as an oracle parameter (a function or an Except value),
and observable side effects (status queries, report-listing calls, sleeps,
downloads, spreadsheet calls) are recorded in an event trace.  Exceptions in
the Python code are modelled with Except; a try/except block becomes a match
on the Except value.
-/

/-- Kinds of exception distinguished by the Python code: HttpError versus a
generic Exception. -/
inductive ApiError
  | http
  | generic
deriving DecidableEq, Repr

/-- Observable effects of the polling loops in wait_for_report and
get_report_data: a job-status query, a report-listing query, a sleep of a
given duration, and a CSV download from a URL. -/
inductive Event
  | statusQuery
  | listQuery
  | sleep (duration : Nat)
  | download (url : String)
deriving DecidableEq, Repr

/-- Model of a pandas DataFrame as used by this program: an ordered list of
column names and an ordered list of rows. -/
structure DataFrame where
  columns : List String
  rows : List (List String)
deriving DecidableEq, Repr

/-! ## wait_for_report (src/fetchData.py lines 160-184) -/

/-- The metadata object of a queries().get response, as read by
wait_for_report: only the running key matters, and it may be absent. -/
structure WaitMetadata where
  running : Option Bool
deriving DecidableEq, Repr

/-- A queries().get response as read by wait_for_report: the metadata key may
itself be absent (Python uses query.get with default). -/
structure WaitQueryResponse where
  metadata : Option WaitMetadata
deriving DecidableEq, Repr

/-- The value of the Python expression
query.get( 'metadata' , \x7b\x7d).get( 'running' , False): an absent metadata
object or an absent running key defaults to False. -/
def WaitQueryResponse.runningFlag (q : WaitQueryResponse) : Bool :=
  match q.metadata with
  | none => false
  | some m => m.running.getD false

/-- The while loop of wait_for_report.  fuel is max_attempts minus attempts;
idx is the zero-based index of the next status query into the status source.
Each iteration queries the source; an exception returns false at once (the
except clause), a falsy running flag returns true at once, and a truthy
running flag sleeps 30 and retries.  The returned list is the trace of
queries and sleeps, in order. -/
def waitForReportGo (src : Nat → Except ApiError WaitQueryResponse) :
    Nat → Nat → Bool × List Event
  | 0, _ => (false, [])
  | fuel + 1, idx =>
    match src idx with
    | .error _ => (false, [Event.statusQuery])
    | .ok q =>
      if q.runningFlag then
        let r := waitForReportGo src fuel (idx + 1)
        (r.1, Event.statusQuery :: Event.sleep 30 :: r.2)
      else
        (true, [Event.statusQuery])

/-- wait_for_report: polls the status source with max_attempts = 10 and a
30-unit sleep between attempts. -/
def wait_for_report (src : Nat → Except ApiError WaitQueryResponse) :
    Bool × List Event :=
  waitForReportGo src 10 0

/-- The trace produced by k consecutive still-running polling attempts: each
contributes one status query followed by one 30-unit sleep. -/
def pollTrace : Nat → List Event
  | 0 => []
  | k + 1 => Event.statusQuery :: Event.sleep 30 :: pollTrace k

/-! ## get_report_data (src/fetchData.py lines 218-266) -/

/-- Report artifact metadata as read by get_report_data: the
googleCloudStoragePath key may be absent. -/
structure ReportMetadata where
  googleCloudStoragePath : Option String
deriving DecidableEq, Repr

/-- One report entry of a reports().list response: the metadata key may be
absent. -/
structure Report where
  metadata : Option ReportMetadata
deriving DecidableEq, Repr

/-- A reports().list response; an absent or empty reports key is modelled as
the empty list (Python tests falsiness of response.get). -/
structure ListReportsResponse where
  reports : List Report
deriving DecidableEq, Repr

/-- The while loop of get_report_data.  fuel is max_retries minus retries;
idx indexes the listing source.  An empty reports list, a latest report
without a storage path, an HttpError and a generic exception all count the
attempt as a retry and sleep wait_time; a storage path on the most recently
listed report downloads it (read_csv) and returns at once. -/
def getReportDataGo (src : Nat → Except ApiError ListReportsResponse)
    (read_csv : String → DataFrame) (wait_time : Nat) :
    Nat → Nat → Option DataFrame × List Event
  | 0, _ => (none, [])
  | fuel + 1, idx =>
    match src idx with
    | .error _ =>
      let r := getReportDataGo src read_csv wait_time fuel (idx + 1)
      (r.1, Event.listQuery :: Event.sleep wait_time :: r.2)
    | .ok resp =>
      match resp.reports.getLast? with
      | none =>
        let r := getReportDataGo src read_csv wait_time fuel (idx + 1)
        (r.1, Event.listQuery :: Event.sleep wait_time :: r.2)
      | some latest =>
        match latest.metadata with
        | none =>
          let r := getReportDataGo src read_csv wait_time fuel (idx + 1)
          (r.1, Event.listQuery :: Event.sleep wait_time :: r.2)
        | some m =>
          match m.googleCloudStoragePath with
          | none =>
            let r := getReportDataGo src read_csv wait_time fuel (idx + 1)
            (r.1, Event.listQuery :: Event.sleep wait_time :: r.2)
          | some url =>
            (some (read_csv url), [Event.listQuery, Event.download url])

/-- get_report_data with its default arguments max_retries = 5 and
wait_time = 30 made explicit.  The outer try/except of the Python function
only guards print calls and the loop, whose body already catches every
exception, so it contributes nothing to the model. -/
def get_report_data (src : Nat → Except ApiError ListReportsResponse)
    (read_csv : String → DataFrame) (max_retries wait_time : Nat) :
    Option DataFrame × List Event :=
  getReportDataGo src read_csv wait_time max_retries 0

/-- The trace produced by k consecutive retried listing attempts: each
contributes one listing query followed by one sleep of w units. -/
def retryTrace (w : Nat) : Nat → List Event
  | 0 => []
  | k + 1 => Event.listQuery :: Event.sleep w :: retryTrace w k

/-- An attempt outcome that the get_report_data loop treats as a retry:
an exception, an empty reports list, or a latest report without a
googleCloudStoragePath. -/
def retryOutcome : Except ApiError ListReportsResponse → Bool
  | .error _ => true
  | .ok resp =>
    match resp.reports.getLast? with
    | none => true
    | some latest =>
      match latest.metadata with
      | none => true
      | some m => m.googleCloudStoragePath.isNone

/-! ## authenticate (src/fetchData.py lines 28-63) -/

/-- The attributes of a google Credentials object that authenticate reads:
valid, expired, and whether a refresh token is present (Python tests
truthiness of creds.refresh_token). -/
structure Cred where
  valid : Bool
  expired : Bool
  refreshToken : Bool
deriving DecidableEq, Repr

/-- The environment of authenticate: the cached token.pickle contents (none
when the file does not exist), the outcome of creds.refresh, the outcome of
the interactive InstalledAppFlow run, and the outcome of building the two
service clients from a credential. -/
structure AuthEnv where
  cache : Option Cred
  refresh : Cred → Except ApiError Cred
  flow : Except ApiError Cred
  buildServices : Cred → Except ApiError Unit

/-- The state reached by the body of authenticate when no exception occurs:
the credential in use, whether token.pickle was written during the call, and
the cache contents after the call. -/
structure AuthOutcome where
  creds : Cred
  wroteCache : Bool
  cacheAfter : Option Cred
deriving DecidableEq, Repr

/-- The inner branch of authenticate for a loaded but invalid credential:
refresh when it is expired and carries a refresh token, otherwise run the
interactive flow. -/
def renewCred (env : AuthEnv) (c : Cred) : Except ApiError Cred :=
  if c.expired && c.refreshToken then env.refresh c else env.flow

/-- The try block of authenticate.  A cached valid credential is used as-is
without being rewritten; otherwise the code refreshes (when the cached
credential is expired and has a refresh token) or runs the interactive flow,
and writes the resulting credential to token.pickle.  Then both service
clients are built.  Any exception is the .error case. -/
def authenticateRaw (env : AuthEnv) : Except ApiError AuthOutcome :=
  match env.cache with
  | some c =>
    if c.valid then
      (env.buildServices c).map fun _ => ⟨c, false, env.cache⟩
    else
      match renewCred env c with
      | .error e => .error e
      | .ok c2 => (env.buildServices c2).map fun _ => ⟨c2, true, some c2⟩
  | none =>
    match env.flow with
    | .error e => .error e
    | .ok c2 => (env.buildServices c2).map fun _ => ⟨c2, true, some c2⟩

/-- authenticate: the try block result converted by the except clause into a
boolean. -/
def authenticate (env : AuthEnv) : Bool :=
  match authenticateRaw env with
  | .ok _ => true
  | .error _ => false

/-- Whether the cache held a valid credential when authenticate started. -/
def cacheHadValid (env : AuthEnv) : Bool :=
  match env.cache with
  | some c => c.valid
  | none => false

/-! ## create_query (src/fetchData.py lines 65-158) -/

/-- The metadata block of the request descriptor built by create_query. -/
structure QueryObjMetadata where
  title : String
  dataRange : String
  format : String
deriving DecidableEq, Repr

/-- One filter entry of the request descriptor. -/
structure QueryFilter where
  filterType : String
  value : String
deriving DecidableEq, Repr

/-- The params block of the request descriptor. -/
structure QueryObjParams where
  paramsType : String
  groupBys : List String
  filters : List QueryFilter
  metrics : List String
deriving DecidableEq, Repr

/-- The request descriptor submitted by create_query. -/
structure QueryObj where
  metadata : QueryObjMetadata
  params : QueryObjParams
  scheduleFrequency : String
deriving DecidableEq, Repr

/-- The query_obj literal built by create_query.  The current date (today) is
available in the environment through datetime.now but the active code never
consults it: the title is the constant display_name string; the date-derived
title appears only in commented-out code. -/
def create_query_body (today : Nat) (advertiser_id : String) : QueryObj :=
  { metadata :=
      { title := "DV 360 Report for testing."
        dataRange := "LAST_7_DAYS"
        format := "CSV" }
    params :=
      { paramsType := "STANDARD"
        groupBys :=
          [ "FILTER_ADVERTISER_NAME", "FILTER_ADVERTISER",
            "FILTER_ADVERTISER_CURRENCY", "FILTER_INSERTION_ORDER_NAME",
            "FILTER_INSERTION_ORDER", "FILTER_LINE_ITEM_NAME",
            "FILTER_LINE_ITEM" ]
        filters :=
          [ ⟨"FILTER_ADVERTISER", advertiser_id⟩,
            ⟨"FILTER_MEDIA_PLAN", "55089520"⟩ ]
        metrics :=
          [ "METRIC_IMPRESSIONS", "METRIC_BILLABLE_IMPRESSIONS",
            "METRIC_CLICKS", "METRIC_CTR", "METRIC_TOTAL_CONVERSIONS",
            "METRIC_LAST_CLICKS", "METRIC_LAST_IMPRESSIONS",
            "METRIC_REVENUE_ADVERTISER", "METRIC_MEDIA_COST_ADVERTISER" ] }
    scheduleFrequency := "ONE_TIME" }

/-- A queries().create response: the queryId key may be absent. -/
structure CreateResponse where
  queryId : Option String
deriving DecidableEq, Repr

/-- The read-back queries().get response as used by create_query: the code
indexes metadata and title directly, so their absence raises KeyError. -/
structure ReadbackResponse where
  metadata : Option QueryObjMetadata
deriving DecidableEq, Repr

/-- The environment of create_query: the creation endpoint and the read-back
endpoint (keyed by the optional queryId the creation response carried). -/
structure CreateQueryEnv where
  create : QueryObj → Except ApiError CreateResponse
  getQuery : Option String → Except ApiError ReadbackResponse

/-- The try block of create_query: build the descriptor, submit it, read the
job back by identifier (indexing metadata and title, so a missing key raises
KeyError, modelled as a generic error), and return the queryId of the
creation response. -/
def createQueryRaw (env : CreateQueryEnv) (today : Nat)
    (advertiser_id : String) : Except ApiError (Option String) :=
  match env.create (create_query_body today advertiser_id) with
  | .error e => .error e
  | .ok resp =>
    match env.getQuery resp.queryId with
    | .error e => .error e
    | .ok q =>
      match q.metadata with
      | none => .error .generic
      | some _ => .ok resp.queryId

/-- create_query: both the HttpError clause and the generic except clause
convert any exception of the try block into None. -/
def create_query (env : CreateQueryEnv) (today : Nat)
    (advertiser_id : String) : Option String :=
  match createQueryRaw env today advertiser_id with
  | .ok r => r
  | .error _ => none

/-! ## update_sheet (src/fetchData.py lines 268-321) -/

/-- Observable spreadsheet API calls issued by update_sheet, in order. -/
inductive SheetEvent
  | getSpreadsheet
  | addSheet (title : String)
  | clear (range : String)
  | update (range : String) (values : List (List String))
deriving DecidableEq, Repr

/-- The environment of update_sheet: the get-spreadsheet endpoint (returning
the list of existing sheet titles), the batchUpdate addSheet request, the
values clear call and the values update call (returning updatedCells). -/
structure SheetsEnv where
  getSpreadsheet : Except ApiError (List String)
  addSheet : String → Except ApiError Unit
  clear : String → Except ApiError Unit
  valuesUpdate : String → List (List String) → Except ApiError Nat

/-- The clear-and-write tail of update_sheet: values is the header row
(column names) followed by the data rows; the clear range is bounded at
column ZZ and the write starts at A1. -/
def updateSheetWrite (env : SheetsEnv) (data : DataFrame)
    (sheet_name : String) (evs : List SheetEvent) : Bool × List SheetEvent :=
  let values := data.columns :: data.rows
  let clearRange := sheet_name ++ "!A1:ZZ"
  let updateRange := sheet_name ++ "!A1"
  match env.clear clearRange with
  | .error _ => (false, evs ++ [SheetEvent.clear clearRange])
  | .ok _ =>
    match env.valuesUpdate updateRange values with
    | .error _ =>
      (false, evs ++ [SheetEvent.clear clearRange,
                      SheetEvent.update updateRange values])
    | .ok _ =>
      (true, evs ++ [SheetEvent.clear clearRange,
                     SheetEvent.update updateRange values])

/-- update_sheet: reads the sheet list, creates the target sheet when no
existing sheet carries its title, then clears and writes.  Every exception is
caught by the except clause and yields false; the trace records the calls
issued before (and including) the failing one. -/
def update_sheet (env : SheetsEnv) (data : DataFrame)
    (sheet_name : String) : Bool × List SheetEvent :=
  match env.getSpreadsheet with
  | .error _ => (false, [SheetEvent.getSpreadsheet])
  | .ok titles =>
    if titles.contains sheet_name then
      updateSheetWrite env data sheet_name [SheetEvent.getSpreadsheet]
    else
      match env.addSheet sheet_name with
      | .error _ =>
        (false, [SheetEvent.getSpreadsheet, SheetEvent.addSheet sheet_name])
      | .ok _ =>
        updateSheetWrite env data sheet_name
          [SheetEvent.getSpreadsheet, SheetEvent.addSheet sheet_name]

/-! ## fetch_report (src/fetchData.py lines 323-334) -/

/-- The metadata of the queries().get response as read by fetch_report:
the googleCloudStoragePathForLatestReport key may be absent. -/
structure FetchMetadata where
  googleCloudStoragePathForLatestReport : Option String
deriving DecidableEq, Repr

/-- The queries().get response as read by fetch_report.  The code indexes
metadata directly, so its absence raises KeyError. -/
structure FetchQueryResponse where
  metadata : Option FetchMetadata
deriving DecidableEq, Repr

/-- The observable outcome of a fetch_report run that raised no exception:
the Python return value (the function has no return statement, so it is
always None) and the bytes written to campaign_report.csv, if any. -/
structure FetchOutcome where
  retVal : Option DataFrame
  fileWritten : Option String
deriving DecidableEq, Repr

/-- fetch_report: the one operation of the class with no try/except.  It
fetches job metadata, reads the latest-report path, and when present
downloads it with a plain HTTP GET into campaign_report.csv; when absent it
only logs.  Any exception of the status query, of the direct metadata
indexing (KeyError) or of the download propagates to the caller, hence the
Except result type. -/
def fetch_report (getQuery : Except ApiError FetchQueryResponse)
    (download : String → Except ApiError String) :
    Except ApiError FetchOutcome :=
  match getQuery with
  | .error e => .error e
  | .ok q =>
    match q.metadata with
    | none => .error .generic
    | some m =>
      match m.googleCloudStoragePathForLatestReport with
      | none => .ok ⟨none, none⟩
      | some url =>
        match download url with
        | .error e => .error e
        | .ok content => .ok ⟨none, some content⟩

/-! ## Concrete instances used by witnesses and counterexamples -/

/-- A status source that reports running on the first two queries and not
running on the third. -/
def waitSrcThree (i : Nat) : Except ApiError WaitQueryResponse :=
  if i < 2 then .ok ⟨some ⟨some true⟩⟩ else .ok ⟨some ⟨some false⟩⟩

/-- A status source whose responses never carry a metadata.running key. -/
def waitSrcAbsent (_ : Nat) : Except ApiError WaitQueryResponse :=
  .ok ⟨some ⟨none⟩⟩

/-- A report-listing source returning an empty list on the first two calls
and then a report whose storage path is gs-bucket-report.csv. -/
def listSrcTwoEmpty (i : Nat) : Except ApiError ListReportsResponse :=
  if i < 2 then .ok ⟨[]⟩
  else .ok ⟨[⟨some ⟨some "gs-bucket-report.csv"⟩⟩]⟩

/-- A valid cached credential. -/
def validCred : Cred := ⟨true, false, true⟩

/-- An expired credential with a refresh token. -/
def expiredCred : Cred := ⟨false, true, true⟩

/-- An authenticate environment whose cache holds a valid credential and
whose remote calls all succeed. -/
def authEnvValid : AuthEnv :=
  ⟨some validCred, fun c => .ok c, .ok validCred, fun _ => .ok ()⟩

/-- An authenticate environment whose cache holds an expired refreshable
credential; refreshing yields validCred. -/
def authEnvRefresh : AuthEnv :=
  ⟨some expiredCred, fun _ => .ok validCred, .ok validCred, fun _ => .ok ()⟩

/-- A spreadsheet environment with one sheet titled Other and all calls
succeeding. -/
def sheetsEnvNoX : SheetsEnv :=
  ⟨.ok ["Other"], fun _ => .ok (), fun _ => .ok (), fun _ _ => .ok 4⟩

/-- A two-column one-row tabular value. -/
def sampleData : DataFrame := ⟨["date", "clicks"], [["2024-01-01", "5"]]⟩

/-! ## Loop lemmas -/

/-- Skipping k still-running attempts of the wait_for_report loop: the run
equals k query-sleep blocks followed by the run of the remaining loop. -/
theorem waitGo_skip (src : Nat → Except ApiError WaitQueryResponse)
    (k : Nat) : ∀ (fuel idx : Nat), k ≤ fuel →
    (∀ i, i < k → ∃ q, src (idx + i) = Except.ok q ∧ q.runningFlag = true) →
    waitForReportGo src fuel idx =
      ((waitForReportGo src (fuel - k) (idx + k)).1,
       pollTrace k ++ (waitForReportGo src (fuel - k) (idx + k)).2) := by
  induction k with
  | zero => intro fuel idx _ _; simp [pollTrace]
  | succ k ih =>
    intro fuel idx hk hrun
    obtain ⟨f, rfl⟩ : ∃ f, fuel = f + 1 := ⟨fuel - 1, by omega⟩
    obtain ⟨q, hq, hflag⟩ := hrun 0 (Nat.succ_pos k)
    rw [Nat.add_zero] at hq
    have hrest := ih f (idx + 1) (by omega) (fun i hi => by
      have h := hrun (i + 1) (by omega)
      rwa [show idx + (i + 1) = idx + 1 + i by omega] at h)
    rw [show idx + (k + 1) = idx + 1 + k by omega,
        show f + 1 - (k + 1) = f - k by omega]
    simp only [waitForReportGo, hq, hflag, if_true, hrest, pollTrace,
      List.cons_append]

/-- A retried attempt of the get_report_data loop: one listing query and one
sleep, then the loop continues. -/
theorem reportGo_retry_step (src : Nat → Except ApiError ListReportsResponse)
    (rc : String → DataFrame) (w fuel idx : Nat)
    (h : retryOutcome (src idx) = true) :
    getReportDataGo src rc w (fuel + 1) idx =
      ((getReportDataGo src rc w fuel (idx + 1)).1,
       Event.listQuery :: Event.sleep w ::
         (getReportDataGo src rc w fuel (idx + 1)).2) := by
  cases hs : src idx with
  | error e => simp only [getReportDataGo, hs]
  | ok resp =>
    rw [hs] at h
    simp only [retryOutcome] at h
    cases hl : resp.reports.getLast? with
    | none => simp only [getReportDataGo, hs, hl]
    | some latest =>
      simp only [hl] at h
      cases hm : latest.metadata with
      | none => simp only [getReportDataGo, hs, hl, hm]
      | some m =>
        simp only [hm] at h
        cases hp : m.googleCloudStoragePath with
        | none => simp only [getReportDataGo, hs, hl, hm, hp]
        | some url => simp [hp] at h

/-- A successful attempt of the get_report_data loop: the most recently
listed report carries a storage path, so the loop downloads it and returns
the parsed data at once. -/
theorem reportGo_success_step (src : Nat → Except ApiError ListReportsResponse)
    (rc : String → DataFrame) (w fuel idx : Nat)
    (resp : ListReportsResponse) (latest : Report) (m : ReportMetadata)
    (url : String)
    (hs : src idx = Except.ok resp)
    (hl : resp.reports.getLast? = some latest)
    (hm : latest.metadata = some m)
    (hp : m.googleCloudStoragePath = some url) :
    getReportDataGo src rc w (fuel + 1) idx =
      (some (rc url), [Event.listQuery, Event.download url]) := by
  simp only [getReportDataGo, hs, hl, hm, hp]

/-- Skipping k retried attempts of the get_report_data loop. -/
theorem reportGo_skip (src : Nat → Except ApiError ListReportsResponse)
    (rc : String → DataFrame) (w : Nat)
    (k : Nat) : ∀ (fuel idx : Nat), k ≤ fuel →
    (∀ i, i < k → retryOutcome (src (idx + i)) = true) →
    getReportDataGo src rc w fuel idx =
      ((getReportDataGo src rc w (fuel - k) (idx + k)).1,
       retryTrace w k ++ (getReportDataGo src rc w (fuel - k) (idx + k)).2) := by
  induction k with
  | zero => intro fuel idx _ _; simp [retryTrace]
  | succ k ih =>
    intro fuel idx hk hretry
    obtain ⟨f, rfl⟩ : ∃ f, fuel = f + 1 := ⟨fuel - 1, by omega⟩
    have h0 := hretry 0 (Nat.succ_pos k)
    rw [Nat.add_zero] at h0
    have hrest := ih f (idx + 1) (by omega) (fun i hi => by
      have h := hretry (i + 1) (by omega)
      rwa [show idx + (i + 1) = idx + 1 + i by omega] at h)
    rw [show idx + (k + 1) = idx + 1 + k by omega,
        show f + 1 - (k + 1) = f - k by omega]
    rw [reportGo_retry_step src rc w f idx h0, hrest]
    simp [retryTrace]

/-- get_report_data against a source whose every call raises: all five
attempts are consumed as retries and the result is None, with a sleep after
each attempt. -/
theorem getReportData_allErr (src : Nat → Except ApiError ListReportsResponse)
    (rc : String → DataFrame)
    (herr : ∀ k, ∃ e, src k = Except.error e) :
    get_report_data src rc 5 30 = (none, retryTrace 30 5) := by
  have h := reportGo_skip src rc 30 5 5 0 (le_refl 5) (fun i _ => by
    obtain ⟨e, he⟩ := herr (0 + i)
    rw [he]
    simp [retryOutcome])
  rw [get_report_data, h]
  simp [getReportDataGo]

/-- The number of status queries in k query-sleep blocks is k. -/
theorem pollTrace_count_status (k : Nat) :
    (pollTrace k).count Event.statusQuery = k := by
  induction k with
  | zero => rfl
  | succ k ih => simp [pollTrace, List.count_cons, ih]

/-- The number of 30-unit sleeps in k query-sleep blocks is k. -/
theorem pollTrace_count_sleep (k : Nat) :
    (pollTrace k).count (Event.sleep 30) = k := by
  induction k with
  | zero => rfl
  | succ k ih => simp [pollTrace, List.count_cons, ih]

/-- The number of listing queries in k retry blocks is k. -/
theorem retryTrace_count_list (w k : Nat) :
    (retryTrace w k).count Event.listQuery = k := by
  induction k with
  | zero => rfl
  | succ k ih => simp [retryTrace, List.count_cons, ih]

/-- The terminal block of a successful retrieval holds exactly one listing
query. -/
theorem count_list_success_block (url : String) :
    ([Event.listQuery, Event.download url]).count Event.listQuery = 1 := rfl

/-! ## Claims -/

/-- C1: for every N with 1 ≤ N ≤ 10, if the job-status source reports the
job as running on each of the first N-1 queries and as not running on query
N, then wait_for_report returns true after issuing exactly N status queries
and sleeping exactly N-1 times, 30 time units each. -/
theorem C1_poller_success (src : Nat → Except ApiError WaitQueryResponse)
    (N : Nat) (h1 : 1 ≤ N) (h2 : N ≤ 10)
    (hrun : ∀ i, i < N - 1 → ∃ q, src i = Except.ok q ∧ q.runningFlag = true)
    (hdone : ∃ q, src (N - 1) = Except.ok q ∧ q.runningFlag = false) :
    wait_for_report src = (true, pollTrace (N - 1) ++ [Event.statusQuery]) ∧
    (pollTrace (N - 1) ++ [Event.statusQuery]).count Event.statusQuery = N ∧
    (pollTrace (N - 1) ++ [Event.statusQuery]).count (Event.sleep 30)
      = N - 1 := by
  obtain ⟨q, hq, hflag⟩ := hdone
  refine ⟨?_, ?_, ?_⟩
  · have hskip := waitGo_skip src (N - 1) 10 0 (by omega)
      (fun i hi => by simpa using hrun i hi)
    rw [wait_for_report, hskip]
    obtain ⟨f, hf⟩ : ∃ f, 10 - (N - 1) = f + 1 := ⟨10 - (N - 1) - 1, by omega⟩
    rw [hf, Nat.zero_add]
    simp [waitForReportGo, hq, hflag]
  · rw [List.count_append, pollTrace_count_status,
      show ([Event.statusQuery] : List Event).count Event.statusQuery = 1
        from rfl]
    omega
  · rw [List.count_append, pollTrace_count_sleep,
      show ([Event.statusQuery] : List Event).count (Event.sleep 30) = 0
        from rfl]
    omega

/-- Witness of C1 at N = 3: running twice, then not running. -/
theorem C1_poller_success_witness :
    wait_for_report waitSrcThree =
      (true, pollTrace 2 ++ [Event.statusQuery]) ∧
    (pollTrace 2 ++ [Event.statusQuery]).count Event.statusQuery = 3 ∧
    (pollTrace 2 ++ [Event.statusQuery]).count (Event.sleep 30) = 2 :=
  C1_poller_success waitSrcThree 3 (by omega) (by omega)
    (fun i hi => ⟨⟨some ⟨some true⟩⟩, by
      unfold waitSrcThree
      rw [if_pos (show i < 2 by omega)], rfl⟩)
    ⟨⟨some ⟨some false⟩⟩, rfl, rfl⟩

/-- C2: if every report-listing query raises (transport or generic),
get_report_data with its defaults consumes each error as a retry and returns
None only after exactly 5 attempts, a wait-interval sleep after each. -/
theorem C2_retriever_all_errors
    (src : Nat → Except ApiError ListReportsResponse)
    (rc : String → DataFrame)
    (herr : ∀ k, ∃ e, src k = Except.error e) :
    get_report_data src rc 5 30 = (none, retryTrace 30 5) ∧
    (retryTrace 30 5).count Event.listQuery = 5 :=
  ⟨getReportData_allErr src rc herr, retryTrace_count_list 30 5⟩

/-- Witness of C2: a listing source raising HttpError on every call. -/
theorem C2_retriever_all_errors_witness :
    get_report_data (fun _ => Except.error ApiError.http)
      (fun _ => sampleData) 5 30 = (none, retryTrace 30 5) ∧
    (retryTrace 30 5).count Event.listQuery = 5 :=
  C2_retriever_all_errors (fun _ => Except.error ApiError.http)
    (fun _ => sampleData) (fun _ => ⟨ApiError.http, rfl⟩)

/-- C3 counterexample: the claim says a status response with an absent
running flag keeps the poller in Pending (it sleeps and retries).  Against a
source whose responses never carry the running key, the code instead returns
true at once: one status query, no sleep, no retry.  The absent key defaults
to False and the falsy test treats it as not running. -/
theorem C3_flag_counterexample :
    wait_for_report waitSrcAbsent = (true, [Event.statusQuery]) ∧
    (wait_for_report waitSrcAbsent).2.count (Event.sleep 30) = 0 ∧
    (wait_for_report waitSrcAbsent).2.count Event.statusQuery = 1 := by
  refine ⟨by decide, by decide, by decide⟩

/-- C3 amended: on each polling attempt, a response whose running flag is
absent or false is the not-running indication and causes an immediate true
return; only a true running flag keeps the poller in Pending, sleeping 30
before the next attempt. -/
theorem C3_flag_amended (src : Nat → Except ApiError WaitQueryResponse)
    (q : WaitQueryResponse) (h : src 0 = Except.ok q) :
    (q.runningFlag = false →
      wait_for_report src = (true, [Event.statusQuery])) ∧
    (q.runningFlag = true →
      (wait_for_report src).2.take 2 =
        [Event.statusQuery, Event.sleep 30]) := by
  constructor
  · intro hf
    rw [wait_for_report]
    simp [waitForReportGo, h, hf]
  · intro ht
    rw [wait_for_report]
    simp [waitForReportGo, h, ht]

/-- Witness of the amended C3: a first response with running = false returns
true at once. -/
theorem C3_flag_amended_witness :
    wait_for_report (fun _ => Except.ok ⟨some ⟨some false⟩⟩) =
      (true, [Event.statusQuery]) :=
  (C3_flag_amended (fun _ => Except.ok ⟨some ⟨some false⟩⟩)
    ⟨some ⟨some false⟩⟩ rfl).1 rfl

/-- C4: if the status query of attempt j+1 raises (after j running
responses, j < 10), wait_for_report returns false immediately: exactly j+1
status queries, exactly j sleeps, so no sleep on the failing attempt and no
further queries. -/
theorem C4_poller_error (src : Nat → Except ApiError WaitQueryResponse)
    (j : Nat) (hj : j < 10)
    (hrun : ∀ i, i < j → ∃ q, src i = Except.ok q ∧ q.runningFlag = true)
    (herr : ∃ e, src j = Except.error e) :
    wait_for_report src = (false, pollTrace j ++ [Event.statusQuery]) ∧
    (pollTrace j ++ [Event.statusQuery]).count Event.statusQuery = j + 1 ∧
    (pollTrace j ++ [Event.statusQuery]).count (Event.sleep 30) = j := by
  obtain ⟨e, he⟩ := herr
  refine ⟨?_, ?_, ?_⟩
  · have hskip := waitGo_skip src j 10 0 (by omega)
      (fun i hi => by simpa using hrun i hi)
    rw [wait_for_report, hskip]
    obtain ⟨f, hf⟩ : ∃ f, 10 - j = f + 1 := ⟨10 - j - 1, by omega⟩
    rw [hf, Nat.zero_add]
    simp [waitForReportGo, he]
  · rw [List.count_append, pollTrace_count_status,
      show ([Event.statusQuery] : List Event).count Event.statusQuery = 1
        from rfl]
  · rw [List.count_append, pollTrace_count_sleep,
      show ([Event.statusQuery] : List Event).count (Event.sleep 30) = 0
        from rfl]
    omega

/-- Witness of C4: the very first status query raises. -/
theorem C4_poller_error_witness :
    wait_for_report (fun _ => Except.error ApiError.generic) =
      (false, pollTrace 0 ++ [Event.statusQuery]) ∧
    (pollTrace 0 ++ [Event.statusQuery]).count Event.statusQuery = 0 + 1 ∧
    (pollTrace 0 ++ [Event.statusQuery]).count (Event.sleep 30) = 0 :=
  C4_poller_error (fun _ => Except.error ApiError.generic) 0 (by omega)
    (fun i hi => absurd hi (by omega)) ⟨ApiError.generic, rfl⟩

/-- C9: for K < 5, if the listing source returns an empty list on the first
K calls and then a list whose most recently listed report carries a storage
path, get_report_data downloads that artifact, parses it with read_csv and
returns it at once: K retry blocks, then one final listing query and the
download, K+1 listing queries in all. -/
theorem C9_retriever_success
    (src : Nat → Except ApiError ListReportsResponse)
    (rc : String → DataFrame) (K : Nat)
    (resp : ListReportsResponse) (latest : Report) (m : ReportMetadata)
    (url : String) (hK : K < 5)
    (hempty : ∀ i, i < K → src i = Except.ok ⟨[]⟩)
    (hfound : src K = Except.ok resp)
    (hlast : resp.reports.getLast? = some latest)
    (hmeta : latest.metadata = some m)
    (hpath : m.googleCloudStoragePath = some url) :
    get_report_data src rc 5 30 =
      (some (rc url),
       retryTrace 30 K ++ [Event.listQuery, Event.download url]) ∧
    (retryTrace 30 K ++ [Event.listQuery, Event.download url]).count
      Event.listQuery = K + 1 := by
  constructor
  · have hskip := reportGo_skip src rc 30 K 5 0 (by omega) (fun i hi => by
      rw [Nat.zero_add, hempty i hi]
      simp [retryOutcome])
    rw [get_report_data, hskip, Nat.zero_add]
    obtain ⟨f, hf⟩ : ∃ f, 5 - K = f + 1 := ⟨5 - K - 1, by omega⟩
    rw [hf,
      reportGo_success_step src rc 30 f K resp latest m url hfound hlast
        hmeta hpath]
  · rw [List.count_append, retryTrace_count_list, count_list_success_block]

/-- Witness of C9 at K = 2 against listSrcTwoEmpty. -/
theorem C9_retriever_success_witness :
    get_report_data listSrcTwoEmpty (fun _ => sampleData) 5 30 =
      (some sampleData,
       retryTrace 30 2 ++
         [Event.listQuery, Event.download "gs-bucket-report.csv"]) ∧
    (retryTrace 30 2 ++
      [Event.listQuery, Event.download "gs-bucket-report.csv"]).count
      Event.listQuery = 2 + 1 :=
  C9_retriever_success listSrcTwoEmpty (fun _ => sampleData) 2
    ⟨[⟨some ⟨some "gs-bucket-report.csv"⟩⟩]⟩
    ⟨some ⟨some "gs-bucket-report.csv"⟩⟩ ⟨some "gs-bucket-report.csv"⟩
    "gs-bucket-report.csv" (by omega)
    (fun i hi => by
      unfold listSrcTwoEmpty
      rw [if_pos (show i < 2 by omega)])
    rfl rfl rfl rfl

/-- C5 counterexample: the claim says every error arising inside any of the
six operations is caught there, so no exception reaches the caller.  But
fetch_report has no try/except: when its status query raises a transport
error, fetch_report itself evaluates to that error instead of a
boolean/None signal. -/
theorem C5_propagation_counterexample :
    fetch_report (Except.error ApiError.http) (fun _ => Except.ok "") =
      Except.error ApiError.http ∧
    ∀ out : FetchOutcome,
      fetch_report (Except.error ApiError.http) (fun _ => Except.ok "") ≠
        Except.ok out :=
  ⟨rfl, fun _ h => by simp [fetch_report] at h⟩

/-- C5 amended: errors arising inside authenticate, create_query,
wait_for_report, get_report_data and update_sheet are caught within the
operation and converted to a boolean or None signal, but fetch_report has no
handler and propagates exceptions to its caller. -/
theorem C5_amended_error_boundaries :
    (∀ env e, authenticateRaw env = Except.error e →
      authenticate env = false) ∧
    (∀ env today adv e, createQueryRaw env today adv = Except.error e →
      create_query env today adv = none) ∧
    (∀ (src : Nat → Except ApiError WaitQueryResponse) e,
      src 0 = Except.error e →
      wait_for_report src = (false, [Event.statusQuery])) ∧
    (∀ (src : Nat → Except ApiError ListReportsResponse) rc,
      (∀ k, ∃ e, src k = Except.error e) →
      (get_report_data src rc 5 30).1 = none) ∧
    (∀ env data name e, env.getSpreadsheet = Except.error e →
      update_sheet env data name = (false, [SheetEvent.getSpreadsheet])) ∧
    (∀ d, fetch_report (Except.error ApiError.http) d =
      Except.error ApiError.http) := by
  refine ⟨?_, ?_, ?_, ?_, ?_, ?_⟩
  · intro env e h
    unfold authenticate
    rw [h]
  · intro env today adv e h
    unfold create_query
    rw [h]
  · intro src e h
    rw [wait_for_report]
    simp [waitForReportGo, h]
  · intro src rc herr
    rw [getReportData_allErr src rc herr]
  · intro env data name e h
    unfold update_sheet
    rw [h]
  · intro d
    rfl

/-- C6 counterexample: the claim says the submitted descriptor title is
derived from the current date and differs between runs on different dates.
The active code uses the constant display_name string, so two runs on
distinct dates build identical titles. -/
theorem C6_title_counterexample :
    (create_query_body 0 "123").metadata.title =
      (create_query_body 1 "123").metadata.title ∧ (0 : Nat) ≠ 1 :=
  ⟨rfl, by omega⟩

/-- C6 amended: for every date and advertiser identifier, the descriptor
submitted by create_query carries the fixed title DV 360 Report for
testing., independent of the current date. -/
theorem C6_title_amended (today : Nat) (advertiser_id : String) :
    (create_query_body today advertiser_id).metadata.title =
      "DV 360 Report for testing." := rfl

/-- C7 counterexample: the claim says every true return of authenticate
wrote the credential to the cache during the call, even when a still-valid
cached credential was used as-is.  With a valid cached credential the code
skips the write block entirely: authenticate returns true and wroteCache is
false. -/
theorem C7_cache_counterexample :
    authenticate authEnvValid = true ∧
    authenticateRaw authEnvValid =
      Except.ok ⟨validCred, false, some validCred⟩ :=
  ⟨rfl, rfl⟩

/-- C7 amended: when authenticate succeeds, the cache was written during the
call exactly when the loaded credential was absent or invalid (the refresh
or interactive-flow path); a still-valid cached credential is used as-is
with no write. -/
theorem C7_cache_amended (env : AuthEnv) (out : AuthOutcome)
    (h : authenticateRaw env = Except.ok out) :
    out.wroteCache = !cacheHadValid env := by
  unfold authenticateRaw at h
  unfold cacheHadValid
  cases hc : env.cache with
  | none =>
    simp only [hc] at h
    cases hf : env.flow with
    | error e => simp [hf] at h
    | ok c2 =>
      simp only [hf] at h
      cases hb : env.buildServices c2 with
      | error e => simp [hb, Except.map] at h
      | ok u =>
        simp only [hb, Except.map, Except.ok.injEq] at h
        rw [← h]
        rfl
  | some c =>
    simp only [hc] at h
    cases hv : c.valid with
    | true =>
      simp only [hv, if_true] at h
      cases hb : env.buildServices c with
      | error e => simp [hb, Except.map] at h
      | ok u =>
        simp only [hb, Except.map, Except.ok.injEq] at h
        rw [← h]
        simp [hv]
    | false =>
      simp only [hv, Bool.false_eq_true, if_false] at h
      cases hr : renewCred env c with
      | error e => simp [hr] at h
      | ok c2 =>
        simp only [hr] at h
        cases hb : env.buildServices c2 with
        | error e => simp [hb, Except.map] at h
        | ok u =>
          simp only [hb, Except.map, Except.ok.injEq] at h
          rw [← h]
          simp [hv]

/-- Witness of the amended C7: an expired refreshable cached credential is
refreshed and the refreshed credential is written to the cache. -/
theorem C7_cache_amended_witness :
    authenticateRaw authEnvRefresh =
      Except.ok ⟨validCred, true, some validCred⟩ ∧
    (AuthOutcome.mk validCred true (some validCred)).wroteCache =
      !cacheHadValid authEnvRefresh :=
  ⟨rfl, C7_cache_amended authEnvRefresh ⟨validCred, true, some validCred⟩
    rfl⟩

/-- C8: when the spreadsheet has no sheet titled X and the remote calls
succeed, update_sheet issues the create-sheet request before the clear and
update calls, and the grid written at A1 is the header row (column names)
followed by the data rows, in that order. -/
theorem C8_publisher (env : SheetsEnv) (data : DataFrame) (X : String)
    (titles : List String) (n : Nat)
    (hget : env.getSpreadsheet = Except.ok titles)
    (habsent : X ∉ titles)
    (hadd : env.addSheet X = Except.ok ())
    (hclear : env.clear (X ++ "!A1:ZZ") = Except.ok ())
    (hupd : env.valuesUpdate (X ++ "!A1") (data.columns :: data.rows) =
      Except.ok n) :
    update_sheet env data X =
      (true, [SheetEvent.getSpreadsheet, SheetEvent.addSheet X,
              SheetEvent.clear (X ++ "!A1:ZZ"),
              SheetEvent.update (X ++ "!A1")
                (data.columns :: data.rows)]) := by
  simp [update_sheet, updateSheetWrite, hget, habsent, hadd, hclear, hupd]

/-- Witness of C8: a spreadsheet holding only a sheet titled Other, a
two-column one-row value, and target title X. -/
theorem C8_publisher_witness :
    update_sheet sheetsEnvNoX sampleData "X" =
      (true, [SheetEvent.getSpreadsheet, SheetEvent.addSheet "X",
              SheetEvent.clear ("X" ++ "!A1:ZZ"),
              SheetEvent.update ("X" ++ "!A1")
                (sampleData.columns :: sampleData.rows)]) :=
  C8_publisher sheetsEnvNoX sampleData "X" ["Other"] 4 rfl (by decide)
    rfl rfl rfl

/-- C10: every run of fetch_report that raises no exception returns None:
its Python body has no return statement, so success is observable only
through the campaign_report.csv side effect and the log output. -/
theorem C10_fetch_returns_none (g : Except ApiError FetchQueryResponse)
    (d : String → Except ApiError String) (out : FetchOutcome)
    (h : fetch_report g d = Except.ok out) : out.retVal = none := by
  unfold fetch_report at h
  cases g with
  | error e => simp at h
  | ok q =>
    cases hm : q.metadata with
    | none => simp [hm] at h
    | some m =>
      simp only [hm] at h
      cases hp : m.googleCloudStoragePathForLatestReport with
      | none =>
        simp only [hp, Except.ok.injEq] at h
        rw [← h]
      | some url =>
        simp only [hp] at h
        cases hd : d url with
        | error e => simp [hd] at h
        | ok content =>
          simp only [hd, Except.ok.injEq] at h
          rw [← h]

/-- Witness of C10: the success path downloads the artifact into the local
file yet still returns None. -/
theorem C10_fetch_returns_none_witness :
    fetch_report (Except.ok ⟨some ⟨some "u"⟩⟩) (fun _ => Except.ok "csv") =
      Except.ok ⟨none, some "csv"⟩ ∧
    (FetchOutcome.mk none (some "csv")).retVal = none :=
  ⟨rfl, C10_fetch_returns_none (Except.ok ⟨some ⟨some "u"⟩⟩)
    (fun _ => Except.ok "csv") ⟨none, some "csv"⟩ rfl⟩
